import Mathlib

/-!
Shallow embedding of the graphics-blocklist core of
`src/widget/GfxInfoBase.cpp` (Maya browser).  The embedding fixes the
Windows build configuration (`XP_WIN` defined, `RELEASE_OR_BETA` not
relevant, `MOZ_WIDGET_ANDROID` undefined), since the claims under test
concern the driver-version switch, the suggested-version block and the
NV310M special case, all of which are compiled on Windows.

Code of the repository that is *not* under `src/` (the enum definition
headers, `GfxDriverInfo.cpp`, `nsIGfxInfo.idl`, preference storage,
`mozilla::Version`, `ParseDriverVersion`, `GfxDeviceFamily`) is modelled
from the spec; each such definition carries a doc comment starting with
`Modelled from the spec:`.
-/

namespace GfxBlocklist

/-- Feature statuses, the `nsIGfxInfo::FEATURE_*` status constants that
`GfxInfoBase.cpp` switches over (tokens of `GfxInfoFeatureStatusDefs.h`). -/
inductive FeatureStatus where
  | STATUS_UNKNOWN
  | STATUS_OK
  | STATUS_INVALID
  | ALLOW_ALWAYS
  | ALLOW_QUALIFIED
  | DENIED
  | BLOCKED_DRIVER_VERSION
  | BLOCKED_MISMATCHED_VERSION
  | BLOCKED_DEVICE
  | BLOCKED_OS_VERSION
  | BLOCKED_PLATFORM_TEST
  | DISCOURAGED
  deriving DecidableEq, Repr

/-- The `VersionComparisonOp` enum (`DRIVER_*` constants), tokens of
`GfxInfoDriverVersionCmpDefs.h`. -/
inductive VersionComparisonOp where
  | LESS_THAN
  | BUILD_ID_LESS_THAN
  | LESS_THAN_OR_EQUAL
  | BUILD_ID_LESS_THAN_OR_EQUAL
  | GREATER_THAN
  | GREATER_THAN_OR_EQUAL
  | EQUAL
  | NOT_EQUAL
  | BETWEEN_EXCLUSIVE
  | BETWEEN_INCLUSIVE
  | BETWEEN_INCLUSIVE_START
  | COMPARISON_IGNORED
  deriving DecidableEq, Repr

/-- Modelled from the spec: the `OperatingSystem` enum of
`GfxInfoOperatingSystemDefs.h` (not under `src/`): concrete systems plus
the `Windows`, `Windows10or11` and `OSX` family wildcards used by
`MatchingOperatingSystems`. -/
inductive OperatingSystem where
  | Unknown
  | Windows
  | WindowsVista
  | Windows7
  | Windows10
  | Windows11
  | Windows10or11
  | OSX
  | Linux
  | Android
  deriving DecidableEq, Repr

/-- The `RefreshRateStatus` enum (tokens of
`GfxInfoRefreshRateStatusDefs.h`). -/
inductive RefreshRateStatus where
  | Any
  | AnySame
  | Single
  | MultipleSame
  | Mixed
  | Unknown
  deriving DecidableEq, Repr

/-- The `BatteryStatus` enum of `GfxDriverInfo.h`. -/
inductive BatteryStatus where
  | All
  | Present
  | None
  deriving DecidableEq, Repr

/-- The `ScreenSizeStatus` enum of `GfxDriverInfo.h`. -/
inductive ScreenSizeStatus where
  | All
  | Small
  | SmallAndMedium
  | Medium
  | MediumAndLarge
  | Large
  deriving DecidableEq, Repr

/-- Result of a fallible attribute getter (`nsresult` classified into the
three cases `GfxInfoBase.cpp` distinguishes: success,
`NS_ERROR_NOT_IMPLEMENTED`, any other failure). -/
inductive GetterResult (α : Type) where
  | ok (val : α)
  | notImplemented
  | failed
  deriving DecidableEq, Repr

/-- Result of a device-id membership lookup (`GfxDeviceFamily::Contains`
classified into `NS_OK`, `NS_ERROR_NOT_AVAILABLE`, any other failure). -/
inductive LookupResult where
  | found
  | notFound
  | error
  deriving DecidableEq, Repr

/-- ASCII lower-casing of one character (for
`nsCaseInsensitiveStringComparator`). -/
def asciiLower (c : Char) : Char :=
  if 'A' ≤ c ∧ c ≤ 'Z' then Char.ofNat (c.toNat + 32) else c

/-- Case-insensitive string equality, modelling
`nsCaseInsensitiveStringComparator` on ASCII data. -/
def ciEq (a b : String) : Bool :=
  a.data.map asciiLower == b.data.map asciiLower

/-- Modelled from the spec: `GfxDriverInfo::GetDeviceVendor(DeviceVendor::All)`
(defined in `GfxDriverInfo.cpp`, not under `src/`): the "All" wildcard
vendor token is the empty string. -/
def deviceVendorAll : String := ""

/-- Modelled from the spec: `GfxDriverInfo::GetDriverVendor(DriverVendor::All)`
(not under `src/`): the "All" wildcard driver-vendor token. -/
def driverVendorAll : String := ""

/-- Modelled from the spec: `GfxDriverInfo::GetWindowProtocol(WindowProtocol::All)`
(not under `src/`): the "All" wildcard window-protocol token. -/
def windowProtocolAll : String := ""

/-- Modelled from the spec: `GfxDriverInfo::GetDeviceVendor(DeviceVendor::NVIDIA)`
(not under `src/`): the NVIDIA PCI vendor id string. -/
def deviceVendorNVIDIA : String := "0x10de"

/-- Modelled from the spec: `GfxDriverInfo::allDriverVersions` is
`~(uint64_t)0`, the "all versions" sentinel. -/
def allDriverVersions : Nat := 2 ^ 64 - 1

/-- Modelled from the spec: the fixed feature enumeration of
`GfxInfoFeatureDefs.h` (not under `src/`), reduced to the features the
source file names explicitly; features are consecutive ints from
`FEATURE_START` (inclusive) to `FEATURE_COUNT` (exclusive). -/
def FEATURE_START : Int := 1

/-- Modelled from the spec: `nsIGfxInfo::FEATURE_DIRECT2D`. -/
def FEATURE_DIRECT2D : Int := 1

/-- Modelled from the spec: `nsIGfxInfo::FEATURE_DIRECT3D_11_ANGLE`. -/
def FEATURE_DIRECT3D_11_ANGLE : Int := 2

/-- Modelled from the spec: `nsIGfxInfo::FEATURE_GPU_PROCESS`. -/
def FEATURE_GPU_PROCESS : Int := 3

/-- Modelled from the spec: `nsIGfxInfo::FEATURE_HW_DECODED_VIDEO_ZERO_COPY`. -/
def FEATURE_HW_DECODED_VIDEO_ZERO_COPY : Int := 4

/-- Modelled from the spec: `nsIGfxInfo::FEATURE_ALLOW_WEBGL_OUT_OF_PROCESS`. -/
def FEATURE_ALLOW_WEBGL_OUT_OF_PROCESS : Int := 5

/-- Modelled from the spec: `nsIGfxInfo::FEATURE_BACKDROP_FILTER`. -/
def FEATURE_BACKDROP_FILTER : Int := 6

/-- Modelled from the spec: one past the last feature id. -/
def FEATURE_COUNT : Int := 7

/-- Modelled from the spec: `nsIGfxInfo::FEATURE_INVALID`, the value
`BlocklistFeatureToGfxFeature` yields for an unrecognized feature name. -/
def FEATURE_INVALID : Int := 0

/-- Modelled from the spec: `GfxDriverInfo::allFeatures`, the "applies to
all features" sentinel (distinct from every real feature id). -/
def allFeatures : Int := -1

/-- Modelled from the spec: `GfxDriverInfo::optionalFeatures`, the
"applies to optional features" sentinel. -/
def optionalFeatures : Int := -2

/-- Modelled from the spec: the `kIsAndroid` build constant; the embedding
fixes the Windows configuration. -/
def kIsAndroid : Bool := false

/-- `GfxInfoBase::OnlyAllowFeatureOnKnownConfig` (GfxInfoBase.cpp:1350). -/
def OnlyAllowFeatureOnKnownConfig (aFeature : Int) : Bool :=
  if aFeature = FEATURE_GPU_PROCESS then kIsAndroid
  else if aFeature = FEATURE_DIRECT3D_11_ANGLE then false
  else if aFeature = FEATURE_ALLOW_WEBGL_OUT_OF_PROCESS then false
  else if aFeature = FEATURE_BACKDROP_FILTER then false
  else true

/-- `GfxInfoBase::IsFeatureAllowlisted` (GfxInfoBase.cpp:1079). -/
def IsFeatureAllowlisted (aFeature : Int) : Bool :=
  aFeature = FEATURE_HW_DECODED_VIDEO_ZERO_COPY

/-- `MatchingAllowStatus` (GfxInfoBase.cpp:626). -/
def MatchingAllowStatus (aStatus : FeatureStatus) : Bool :=
  match aStatus with
  | .ALLOW_ALWAYS => true
  | .ALLOW_QUALIFIED => true
  | _ => false

/-- `MatchingOperatingSystems` (GfxInfoBase.cpp:646), Windows build: the
`XP_WIN` block is active, the `XP_MACOSX` block is not. -/
def MatchingOperatingSystems (aBlockedOS aSystemOS : OperatingSystem) : Bool :=
  if aBlockedOS = .Unknown then false
  else if aBlockedOS = .Windows then true
  else if aBlockedOS = .Windows10or11 ∧
          (aSystemOS = .Windows10 ∨ aSystemOS = .Windows11) then true
  else aSystemOS = aBlockedOS

/-- `GfxInfoBase::MatchingRefreshRateStatus` (GfxInfoBase.cpp:680). -/
def MatchingRefreshRateStatus (aSystemStatus aBlockedStatus : RefreshRateStatus) : Bool :=
  match aBlockedStatus with
  | .Any => true
  | .AnySame =>
      aSystemStatus = .Single ∨ aSystemStatus = .MultipleSame
  | _ => aSystemStatus = aBlockedStatus

/-- `GfxInfoBase::MatchingRefreshRates` (GfxInfoBase.cpp:694). -/
def MatchingRefreshRates (aSystem aBlocked aBlockedMax : Int)
    (aCmp : VersionComparisonOp) : Bool :=
  match aCmp with
  | .COMPARISON_IGNORED => true
  | .LESS_THAN => aSystem < aBlocked
  | .LESS_THAN_OR_EQUAL => aSystem ≤ aBlocked
  | .GREATER_THAN => aSystem > aBlocked
  | .GREATER_THAN_OR_EQUAL => aSystem ≥ aBlocked
  | .EQUAL => aSystem = aBlocked
  | .NOT_EQUAL => aSystem ≠ aBlocked
  | .BETWEEN_EXCLUSIVE => aSystem > aBlocked ∧ aSystem < aBlockedMax
  | .BETWEEN_INCLUSIVE => aSystem ≥ aBlocked ∧ aSystem ≤ aBlockedMax
  | .BETWEEN_INCLUSIVE_START => aSystem ≥ aBlocked ∧ aSystem < aBlockedMax
  | _ => false

/-- `MatchingBattery` (GfxInfoBase.cpp:726). -/
def MatchingBattery (aBatteryStatus : BatteryStatus) (aHasBattery : Bool) : Bool :=
  match aBatteryStatus with
  | .All => true
  | .None => !aHasBattery
  | .Present => aHasBattery

/-- `MatchingScreenSize` (GfxInfoBase.cpp:740); thresholds 2304000 and
4953600 pixels. -/
def MatchingScreenSize (aScreenStatus : ScreenSizeStatus) (aScreenPixels : Int) : Bool :=
  let kMaxSmallPixels : Int := 2304000
  let kMaxMediumPixels : Int := 4953600
  match aScreenStatus with
  | .All => true
  | .Small => aScreenPixels ≤ kMaxSmallPixels
  | .SmallAndMedium => aScreenPixels ≤ kMaxMediumPixels
  | .Medium => aScreenPixels > kMaxSmallPixels ∧ aScreenPixels ≤ kMaxMediumPixels
  | .MediumAndLarge => aScreenPixels > kMaxSmallPixels
  | .Large => aScreenPixels > kMaxMediumPixels

/-- `GfxInfoBase::DoesWindowProtocolMatch` (GfxInfoBase.cpp:1051). -/
def DoesWindowProtocolMatch (aBlocklistWindowProtocol aWindowProtocol : String) : Bool :=
  ciEq aBlocklistWindowProtocol aWindowProtocol ||
  ciEq aBlocklistWindowProtocol windowProtocolAll

/-- `GfxInfoBase::DoesVendorMatch` (GfxInfoBase.cpp:1061). -/
def DoesVendorMatch (aBlocklistVendor aAdapterVendor : String) : Bool :=
  ciEq aBlocklistVendor aAdapterVendor ||
  ciEq aBlocklistVendor deviceVendorAll

/-- `GfxInfoBase::DoesDriverVendorMatch` (GfxInfoBase.cpp:1070). -/
def DoesDriverVendorMatch (aBlocklistVendor aDriverVendor : String) : Bool :=
  ciEq aBlocklistVendor aDriverVendor ||
  ciEq aBlocklistVendor driverVendorAll

/-- Modelled from the spec: `GfxDeviceFamily` (GfxDriverInfo.h/.cpp, not
under `src/`): an owned device-id set offering `IsEmpty` and a `Contains`
lookup that can succeed, report not-found (`NS_ERROR_NOT_AVAILABLE`), or
fail for another reason (e.g. an unparsable id against a device range). -/
structure GfxDeviceFamily where
  isEmpty : Bool
  contains : String → LookupResult

/-- Modelled from the spec: `GfxVersionEx::Compare(aExVersion, aExVersionMax, aCmp)`
(not under `src/`): "extended OS-version range via VersionAlgebra" (§4.1),
with the packed extended version abstracted to a natural number.  The
algebra mirrors §4.1 including the BUILD_ID low-16-bit forms. -/
def gfxVersionExCompare (aSystem aExVersion aExVersionMax : Nat)
    (aCmp : VersionComparisonOp) : Bool :=
  match aCmp with
  | .COMPARISON_IGNORED => true
  | .LESS_THAN => aSystem < aExVersion
  | .LESS_THAN_OR_EQUAL => aSystem ≤ aExVersion
  | .GREATER_THAN => aSystem > aExVersion
  | .GREATER_THAN_OR_EQUAL => aSystem ≥ aExVersion
  | .EQUAL => aSystem = aExVersion
  | .NOT_EQUAL => aSystem ≠ aExVersion
  | .BUILD_ID_LESS_THAN => aSystem % 65536 < aExVersion % 65536
  | .BUILD_ID_LESS_THAN_OR_EQUAL => aSystem % 65536 ≤ aExVersion % 65536
  | .BETWEEN_EXCLUSIVE => aSystem > aExVersion ∧ aSystem < aExVersionMax
  | .BETWEEN_INCLUSIVE => aSystem ≥ aExVersion ∧ aSystem ≤ aExVersionMax
  | .BETWEEN_INCLUSIVE_START => aSystem ≥ aExVersion ∧ aSystem < aExVersionMax

/-- The rule data model: the fields of `GfxDriverInfo` (GfxDriverInfo.h)
read by `GfxInfoBase.cpp`.  Driver versions are the packed 64-bit values
(`ParseDriverVersion` output), kept as `Nat`. -/
structure GfxDriverInfo where
  mOperatingSystem : OperatingSystem
  mOperatingSystemVersion : Nat
  mOperatingSystemVersionEx : Nat
  mOperatingSystemVersionExMax : Nat
  mOperatingSystemVersionExComparisonOp : VersionComparisonOp
  mRefreshRateStatus : RefreshRateStatus
  mMinRefreshRate : Int
  mMinRefreshRateMax : Int
  mMinRefreshRateComparisonOp : VersionComparisonOp
  mMaxRefreshRate : Int
  mMaxRefreshRateMax : Int
  mMaxRefreshRateComparisonOp : VersionComparisonOp
  mWindowProtocol : String
  mAdapterVendor : String
  mDriverVendor : String
  mDevices : Option GfxDeviceFamily
  mFeature : Int
  mFeatureStatus : FeatureStatus
  mComparisonOp : VersionComparisonOp
  mDriverVersion : Nat
  mDriverVersionMax : Nat
  mSuggestedVersion : Option String
  mRuleId : String
  mGpu2 : Bool
  mBattery : BatteryStatus
  mScreen : ScreenSizeStatus
  mHardware : String
  mModel : String
  mProduct : String
  mManufacturer : String

/-- Modelled from the spec: the `GfxDriverInfo` default constructor
(GfxDriverInfo.cpp, not under `src/`): wildcard strings, `allFeatures`,
status OK, comparison ignored, no devices, no rule id. -/
def defaultDriverInfo : GfxDriverInfo where
  mOperatingSystem := .Unknown
  mOperatingSystemVersion := 0
  mOperatingSystemVersionEx := 0
  mOperatingSystemVersionExMax := 0
  mOperatingSystemVersionExComparisonOp := .COMPARISON_IGNORED
  mRefreshRateStatus := .Any
  mMinRefreshRate := 0
  mMinRefreshRateMax := 0
  mMinRefreshRateComparisonOp := .COMPARISON_IGNORED
  mMaxRefreshRate := 0
  mMaxRefreshRateMax := 0
  mMaxRefreshRateComparisonOp := .COMPARISON_IGNORED
  mWindowProtocol := windowProtocolAll
  mAdapterVendor := deviceVendorAll
  mDriverVendor := driverVendorAll
  mDevices := none
  mFeature := allFeatures
  mFeatureStatus := .STATUS_OK
  mComparisonOp := .COMPARISON_IGNORED
  mDriverVersion := 0
  mDriverVersionMax := 0
  mSuggestedVersion := none
  mRuleId := ""
  mGpu2 := false
  mBattery := .All
  mScreen := .All
  mHardware := ""
  mModel := ""
  mProduct := ""
  mManufacturer := ""

/-- One adapter slot's attributes as used by the scan.  A slot is `none`
when any of its attribute getters fails (`adapterInfoFailed`).
`driverVersion` is the packed value `ParseDriverVersion` extracts from the
raw version string (the parser itself is platform code not under `src/`;
a failed parse leaves the initial 0). -/
structure AdapterInfo where
  vendorID : String
  deviceID : String
  driverVendor : String
  driverVersion : Nat
  deriving DecidableEq, Repr

/-- The machine snapshot: the `GfxInfoBase` member state and attribute
getters read by `FindBlocklistedDeviceInList` and
`GetFeatureStatusImpl`. -/
structure Machine where
  mWindowProtocol : GetterResult String
  mHasBattery : GetterResult Bool
  mScreenCount : Nat
  mMinRefreshRate : Int
  mMaxRefreshRate : Int
  mScreenPixels : Int
  mOsVersion : Nat
  mOsVersionEx : Nat
  adapter1 : Option AdapterInfo
  adapter2 : Option AdapterInfo
  mHardware : String
  mModel : String
  mProduct : String
  mManufacturer : String

/-- The refresh-rate status the scan computes from the screen data
(GfxInfoBase.cpp:778-785). -/
def systemRefreshRateStatus (m : Machine) : RefreshRateStatus :=
  if m.mScreenCount ≤ 1 then .Single
  else if m.mMinRefreshRate = m.mMaxRefreshRate then .MultipleSame
  else .Mixed

/-- The effective window-protocol string: empty when the getter is not
implemented (the `nsAutoString` stays default-initialized). -/
def effectiveWindowProtocol (m : Machine) : String :=
  match m.mWindowProtocol with
  | .ok s => s
  | _ => ""

/-- The effective battery flag: `false` when the getter is not implemented. -/
def effectiveHasBattery (m : Machine) : Bool :=
  match m.mHasBattery with
  | .ok b => b
  | _ => false

/-- The driver-version comparison switch of the scan
(GfxInfoBase.cpp:937-981, Windows build).  Note the BUILD_ID forms mask
only the system side with `0xFFFF`. -/
def DriverVersionMatches (op : VersionComparisonOp)
    (driverVersion lower upper : Nat) : Bool :=
  match op with
  | .LESS_THAN => driverVersion < lower
  | .BUILD_ID_LESS_THAN => (driverVersion &&& 0xFFFF) < lower
  | .LESS_THAN_OR_EQUAL => driverVersion ≤ lower
  | .BUILD_ID_LESS_THAN_OR_EQUAL => (driverVersion &&& 0xFFFF) ≤ lower
  | .GREATER_THAN => driverVersion > lower
  | .GREATER_THAN_OR_EQUAL => driverVersion ≥ lower
  | .EQUAL => driverVersion = lower
  | .NOT_EQUAL => driverVersion ≠ lower
  | .BETWEEN_EXCLUSIVE => driverVersion > lower ∧ driverVersion < upper
  | .BETWEEN_INCLUSIVE => driverVersion ≥ lower ∧ driverVersion ≤ upper
  | .BETWEEN_INCLUSIVE_START => driverVersion ≥ lower ∧ driverVersion < upper
  | .COMPARISON_IGNORED => true

/-- Per-rule outcome of one iteration of the scan loop. -/
inductive RuleOutcome where
  | skip
  | abortScan
  | wins
  deriving DecidableEq, Repr

/-- One iteration of the scan loop of `FindBlocklistedDeviceInList`
(GfxInfoBase.cpp:829-1002): the predicate chain for a single rule.
`skip` is `continue`, `abortScan` is the bare `break` taken when the
device lookup fails in block mode, `wins` is the `break` that records the
rule's status. -/
def ruleOutcome (r : GfxDriverInfo) (aFeature : Int) (os : OperatingSystem)
    (aForAllowing : Bool) (m : Machine) : RuleOutcome :=
  if (MatchingAllowStatus r.mFeatureStatus != aForAllowing) then .skip
  else
    match (if r.mGpu2 then m.adapter2 else m.adapter1) with
    | none => .skip
    | some ad =>
      if !MatchingOperatingSystems r.mOperatingSystem os then .skip
      else if r.mOperatingSystemVersion ≠ 0 ∧
              r.mOperatingSystemVersion ≠ m.mOsVersion then .skip
      else if !gfxVersionExCompare m.mOsVersionEx r.mOperatingSystemVersionEx
              r.mOperatingSystemVersionExMax
              r.mOperatingSystemVersionExComparisonOp then .skip
      else if !MatchingRefreshRateStatus (systemRefreshRateStatus m)
              r.mRefreshRateStatus then .skip
      else if m.mScreenCount > 0 ∧
              !MatchingRefreshRates m.mMinRefreshRate r.mMinRefreshRate
                r.mMinRefreshRateMax r.mMinRefreshRateComparisonOp then .skip
      else if m.mScreenCount > 0 ∧
              !MatchingRefreshRates m.mMaxRefreshRate r.mMaxRefreshRate
                r.mMaxRefreshRateMax r.mMaxRefreshRateComparisonOp then .skip
      else if !MatchingBattery r.mBattery (effectiveHasBattery m) then .skip
      else if !MatchingScreenSize r.mScreen m.mScreenPixels then .skip
      else if !DoesWindowProtocolMatch r.mWindowProtocol
              (effectiveWindowProtocol m) then .skip
      else if !DoesVendorMatch r.mAdapterVendor ad.vendorID then .skip
      else if !DoesDriverVendorMatch r.mDriverVendor ad.driverVendor then .skip
      else
        let deviceLookup : Option LookupResult :=
          match r.mDevices with
          | some fam => if fam.isEmpty then none else some (fam.contains ad.deviceID)
          | none => none
        let afterDevices : RuleOutcome :=
          if r.mHardware ≠ "" ∧ r.mHardware ≠ m.mHardware then .skip
          else if r.mModel ≠ "" ∧ r.mModel ≠ m.mModel then .skip
          else if r.mProduct ≠ "" ∧ r.mProduct ≠ m.mProduct then .skip
          else if r.mManufacturer ≠ "" ∧ r.mManufacturer ≠ m.mManufacturer then .skip
          else
            let matched := DriverVersionMatches r.mComparisonOp ad.driverVersion
              r.mDriverVersion r.mDriverVersionMax
            if matched ∨ r.mDriverVersion = allDriverVersions then
              if r.mFeature = allFeatures ∨ r.mFeature = aFeature ∨
                 (r.mFeature = optionalFeatures ∧
                  OnlyAllowFeatureOnKnownConfig aFeature) then .wins
              else .skip
            else .skip
        match deviceLookup with
        | some .notFound => .skip
        | some .error => if aForAllowing then .skip else .abortScan
        | _ => afterDevices

/-- Result of the scan loop as a whole: the winning rule, an abort via the
device-lookup-failure `break`, or falling off the end of the list. -/
inductive ScanResult where
  | matched (r : GfxDriverInfo)
  | aborted
  | exhausted

/-- The scan loop of `FindBlocklistedDeviceInList` over the rule list. -/
def scanDriverList (info : List GfxDriverInfo) (aFeature : Int)
    (os : OperatingSystem) (aForAllowing : Bool) (m : Machine) : ScanResult :=
  match info with
  | [] => .exhausted
  | r :: rest =>
    match ruleOutcome r aFeature os aForAllowing m with
    | .wins => .matched r
    | .abortScan => .aborted
    | .skip => scanDriverList rest aFeature os aForAllowing m

/-- The triple of outputs of `FindBlocklistedDeviceInList`: the returned
status and the two in-out strings (`none` = never written). -/
structure FindResult where
  status : FeatureStatus
  failureId : Option String
  suggestedVersion : Option String
  deriving DecidableEq, Repr

/-- The hard-coded NVidia 310M / Direct2D post-scan block
(GfxInfoBase.cpp:1004-1024): fires only on a remaining
`FEATURE_STATUS_UNKNOWN`. -/
def nv310mCondition (aFeature : Int) (m : Machine) : Bool :=
  decide (aFeature = FEATURE_DIRECT2D) &&
  match m.adapter2 with
  | some ad => ciEq deviceVendorNVIDIA ad.vendorID && ciEq "0x0A70" ad.deviceID
  | none => false

/-- The suggested-version fields decoded from the packed 64-bit bound
(GfxInfoBase.cpp:1033-1038). -/
def formatDriverVersion (v : Nat) : String :=
  toString ((v &&& 0xffff000000000000) >>> 48) ++ "." ++
  toString ((v &&& 0x0000ffff00000000) >>> 32) ++ "." ++
  toString ((v &&& 0x00000000ffff0000) >>> 16) ++ "." ++
  toString (v &&& 0x000000000000ffff)

/-- The suggested-driver-version output for the winning rule
(GfxInfoBase.cpp:1028-1040): the explicit suggestion if present, else the
formatted bound exactly for a strict `DRIVER_LESS_THAN` with a bounded
version. -/
def suggestedVersionFor (r : GfxDriverInfo) : Option String :=
  match r.mSuggestedVersion with
  | some s => some s
  | none =>
    if r.mComparisonOp = .LESS_THAN ∧ r.mDriverVersion ≠ allDriverVersions then
      some (formatDriverVersion r.mDriverVersion)
    else none

/-- Post-loop assembly of `FindBlocklistedDeviceInList`
(GfxInfoBase.cpp:988-1043): the status/failure id recorded by the winning
rule (or left at `FEATURE_STATUS_UNKNOWN`), the NV310M special case and
the suggested-version block. -/
def findAssemble (sc : ScanResult) (aFeature : Int) (m : Machine) : FindResult :=
  let st0 : FeatureStatus :=
    match sc with
    | .matched r => r.mFeatureStatus
    | _ => .STATUS_UNKNOWN
  let fid0 : Option String :=
    match sc with
    | .matched r =>
      some (if r.mRuleId ≠ "" then r.mRuleId
            else "FEATURE_FAILURE_DL_BLOCKLIST_NO_ID")
    | _ => none
  let st1 := if st0 = .STATUS_UNKNOWN ∧ nv310mCondition aFeature m then
      FeatureStatus.BLOCKED_DEVICE
    else st0
  let fid1 := if st0 = .STATUS_UNKNOWN ∧ nv310mCondition aFeature m then
      some "FEATURE_FAILURE_D2D_NV310M_BLOCK"
    else fid0
  let sugg : Option String :=
    match sc with
    | .matched r =>
      if st1 = .BLOCKED_DRIVER_VERSION then suggestedVersionFor r else none
    | _ => none
  ⟨st1, fid1, sugg⟩

/-- `GfxInfoBase::FindBlocklistedDeviceInList` (GfxInfoBase.cpp:765),
Windows build: early `return 0` on hard getter failure or when both
adapter slots are unavailable (0 is `FEATURE_STATUS_UNKNOWN`, per the
status constants of `nsIGfxInfo.idl`, not under `src/`), then the scan
loop followed by the post-loop assembly. -/
def FindBlocklistedDeviceInList (info : List GfxDriverInfo) (aFeature : Int)
    (os : OperatingSystem) (aForAllowing : Bool) (m : Machine) : FindResult :=
  if m.mWindowProtocol = .failed then ⟨.STATUS_UNKNOWN, none, none⟩
  else if m.mHasBattery = .failed then ⟨.STATUS_UNKNOWN, none, none⟩
  else if m.adapter1 = none ∧ m.adapter2 = none then ⟨.STATUS_UNKNOWN, none, none⟩
  else findAssemble (scanDriverList info aFeature os aForAllowing m) aFeature m

/-- The comparator names recognized by `BlocklistComparatorToComparisonOp`
(one per `VersionComparisonOp` value; the token list is generated from
`GfxInfoDriverVersionCmpDefs.h`, not under `src/`, each token being the
enum id itself, as in the spec's `driverVersionComparator:LESS_THAN_OR_EQUAL`
example). -/
def recognizedComparatorToken (op : String) : Bool :=
  op == "LESS_THAN" || op == "BUILD_ID_LESS_THAN" ||
  op == "LESS_THAN_OR_EQUAL" || op == "BUILD_ID_LESS_THAN_OR_EQUAL" ||
  op == "GREATER_THAN" || op == "GREATER_THAN_OR_EQUAL" ||
  op == "EQUAL" || op == "NOT_EQUAL" ||
  op == "BETWEEN_EXCLUSIVE" || op == "BETWEEN_INCLUSIVE" ||
  op == "BETWEEN_INCLUSIVE_START" || op == "COMPARISON_IGNORED"

/-- `BlocklistComparatorToComparisonOp` (GfxInfoBase.cpp:309): the default
for an unrecognized token is `DRIVER_COMPARISON_IGNORED`. -/
def BlocklistComparatorToComparisonOp (op : String) : VersionComparisonOp :=
  if op == "LESS_THAN" then .LESS_THAN
  else if op == "BUILD_ID_LESS_THAN" then .BUILD_ID_LESS_THAN
  else if op == "LESS_THAN_OR_EQUAL" then .LESS_THAN_OR_EQUAL
  else if op == "BUILD_ID_LESS_THAN_OR_EQUAL" then .BUILD_ID_LESS_THAN_OR_EQUAL
  else if op == "GREATER_THAN" then .GREATER_THAN
  else if op == "GREATER_THAN_OR_EQUAL" then .GREATER_THAN_OR_EQUAL
  else if op == "EQUAL" then .EQUAL
  else if op == "NOT_EQUAL" then .NOT_EQUAL
  else if op == "BETWEEN_EXCLUSIVE" then .BETWEEN_EXCLUSIVE
  else if op == "BETWEEN_INCLUSIVE" then .BETWEEN_INCLUSIVE
  else if op == "BETWEEN_INCLUSIVE_START" then .BETWEEN_INCLUSIVE_START
  else if op == "COMPARISON_IGNORED" then .COMPARISON_IGNORED
  else .COMPARISON_IGNORED

/-- The status names recognized by
`BlocklistFeatureStatusToGfxFeatureStatus` (tokens generated from
`GfxInfoFeatureStatusDefs.h`, not under `src/`; each token is the
`FEATURE_*` id suffix, as in the spec's `featureStatus:BLOCKED_DRIVER_VERSION`
example). -/
def recognizedStatusToken (s : String) : Bool :=
  s == "STATUS_UNKNOWN" || s == "STATUS_OK" || s == "STATUS_INVALID" ||
  s == "ALLOW_ALWAYS" || s == "ALLOW_QUALIFIED" || s == "DENIED" ||
  s == "BLOCKED_DRIVER_VERSION" || s == "BLOCKED_MISMATCHED_VERSION" ||
  s == "BLOCKED_DEVICE" || s == "BLOCKED_OS_VERSION" ||
  s == "BLOCKED_PLATFORM_TEST" || s == "DISCOURAGED"

/-- `BlocklistFeatureStatusToGfxFeatureStatus` (GfxInfoBase.cpp:283): an
unrecognized status name falls through to `FEATURE_STATUS_OK`. -/
def BlocklistFeatureStatusToGfxFeatureStatus (aStatus : String) : FeatureStatus :=
  if aStatus == "STATUS_UNKNOWN" then .STATUS_UNKNOWN
  else if aStatus == "STATUS_OK" then .STATUS_OK
  else if aStatus == "STATUS_INVALID" then .STATUS_INVALID
  else if aStatus == "ALLOW_ALWAYS" then .ALLOW_ALWAYS
  else if aStatus == "ALLOW_QUALIFIED" then .ALLOW_QUALIFIED
  else if aStatus == "DENIED" then .DENIED
  else if aStatus == "BLOCKED_DRIVER_VERSION" then .BLOCKED_DRIVER_VERSION
  else if aStatus == "BLOCKED_MISMATCHED_VERSION" then .BLOCKED_MISMATCHED_VERSION
  else if aStatus == "BLOCKED_DEVICE" then .BLOCKED_DEVICE
  else if aStatus == "BLOCKED_OS_VERSION" then .BLOCKED_OS_VERSION
  else if aStatus == "BLOCKED_PLATFORM_TEST" then .BLOCKED_PLATFORM_TEST
  else if aStatus == "DISCOURAGED" then .DISCOURAGED
  else .STATUS_OK

/-- `BlocklistFeatureToGfxFeature` (GfxInfoBase.cpp:266) over the modelled
feature enumeration; an unrecognized name yields `FEATURE_INVALID`. -/
def BlocklistFeatureToGfxFeature (aFeature : String) : Int :=
  if aFeature == "DIRECT2D" then FEATURE_DIRECT2D
  else if aFeature == "DIRECT3D_11_ANGLE" then FEATURE_DIRECT3D_11_ANGLE
  else if aFeature == "GPU_PROCESS" then FEATURE_GPU_PROCESS
  else if aFeature == "HW_DECODED_VIDEO_ZERO_COPY" then FEATURE_HW_DECODED_VIDEO_ZERO_COPY
  else if aFeature == "ALLOW_WEBGL_OUT_OF_PROCESS" then FEATURE_ALLOW_WEBGL_OUT_OF_PROCESS
  else if aFeature == "BACKDROP_FILTER" then FEATURE_BACKDROP_FILTER
  else FEATURE_INVALID

/-- `BlocklistOSToOperatingSystem` (GfxInfoBase.cpp:228) over a
representative token table (`GfxInfoOperatingSystemDefs.h` is not under
`src/`); an unrecognized name yields `OperatingSystem::Unknown`. -/
def BlocklistOSToOperatingSystem (os : String) : OperatingSystem :=
  if os == "All" then .Windows
  else if os == "WINNT 6.0" then .WindowsVista
  else if os == "WINNT 6.1" then .Windows7
  else if os == "WINNT 10.0" then .Windows10
  else if os == "Windows 11" then .Windows11
  else if os == "Darwin" then .OSX
  else if os == "Linux" then .Linux
  else if os == "Android" then .Android
  else .Unknown

/-- `BlocklistToRefreshRateStatus` (GfxInfoBase.cpp:238); an unrecognized
name yields `RefreshRateStatus::Unknown`. -/
def BlocklistToRefreshRateStatus (refreshRateStatus : String) : RefreshRateStatus :=
  if refreshRateStatus == "Any" then .Any
  else if refreshRateStatus == "AnySame" then .AnySame
  else if refreshRateStatus == "Single" then .Single
  else if refreshRateStatus == "MultipleSame" then .MultipleSame
  else if refreshRateStatus == "Mixed" then .Mixed
  else .Unknown

/-- Splitter for `mozilla::ParseString(str, sep, array)`: tokens between
separators, empty tokens dropped. -/
def splitSepAux (sep : Char) : List Char → List Char → List (List Char)
  | [], acc => [acc.reverse]
  | c :: cs, acc =>
    if c = sep then acc.reverse :: splitSepAux sep cs []
    else splitSepAux sep cs (c :: acc)

/-- `mozilla::ParseString` (tokenize on a separator, dropping empty
tokens), as used for the `:`-split of each field and the `,`-split of
`devices` and `versionRange` values. -/
def ParseString (sep : Char) (s : String) : List String :=
  ((splitSepAux sep s.data []).map (fun cs => String.mk cs)).filter
    (fun t => t ≠ "")

/-- `strtoul(value, nullptr, 10)`: the leading decimal digits of the
string as a number (0 when there are none). -/
def strtoulAux : List Char → Nat → Nat
  | [], acc => acc
  | c :: cs, acc =>
    if c.isDigit then strtoulAux cs (acc * 10 + (c.toNat - 48)) else acc

/-- `strtoul` base 10 on the value string. -/
def strtoul10 (s : String) : Nat := strtoulAux s.data 0

/-- `BlocklistDevicesToDeviceFamily` (GfxInfoBase.cpp:249): an empty list
yields no family (unconstrained); otherwise a family holding the ids,
whose membership lookup is the case-insensitive list membership (the
concrete `GfxDeviceFamily::Contains` for plain id lists). -/
def BlocklistDevicesToDeviceFamily (devices : List String) : Option GfxDeviceFamily :=
  if devices.length = 0 then none
  else
    some
      { isEmpty := devices.isEmpty
        contains := fun d =>
          if devices.any (fun id => ciEq id d) then .found else .notFound }

/-- Modelled from the spec: the external version machinery the parser
consults — `mozilla::Version` comparisons of the host-application version
against `versionRange` bounds (dotted/letter-aware, distinct from packed
driver versions), `GfxVersionEx::Parse`, and the platform
`ParseDriverVersion` — none of which is under `src/`. -/
structure ParseEnv where
  versionGTZero : String → Bool
  appGEVersion : String → Bool
  appLEVersion : String → Bool
  parseDriverVersion : String → Option Nat
  parseVersionEx : String → Nat

/-- One `key:value` field of `BlocklistEntryToDriverInfo`
(GfxInfoBase.cpp:343-459): `none` rejects the whole record; unknown keys
are ignored. -/
def parseBlocklistField (env : ParseEnv) (d : GfxDriverInfo)
    (field : String) : Option GfxDriverInfo :=
  match ParseString ':' field with
  | [key, value] =>
    if value = "" then none
    else if key == "blockID" then
      some { d with mRuleId := "FEATURE_FAILURE_DL_BLOCKLIST_" ++ value }
    else if key == "os" then
      some { d with mOperatingSystem := BlocklistOSToOperatingSystem value }
    else if key == "osversion" then
      some { d with mOperatingSystemVersion := strtoul10 value }
    else if key == "osVersionEx" then
      some { d with mOperatingSystemVersionEx := env.parseVersionEx value }
    else if key == "osVersionExMax" then
      some { d with mOperatingSystemVersionExMax := env.parseVersionEx value }
    else if key == "osVersionExComparator" then
      some { d with mOperatingSystemVersionExComparisonOp :=
        BlocklistComparatorToComparisonOp value }
    else if key == "refreshRateStatus" then
      some { d with mRefreshRateStatus := BlocklistToRefreshRateStatus value }
    else if key == "minRefreshRate" then
      some { d with mMinRefreshRate := (strtoul10 value : Int) }
    else if key == "minRefreshRateMax" then
      some { d with mMinRefreshRateMax := (strtoul10 value : Int) }
    else if key == "minRefreshRateComparator" then
      some { d with mMinRefreshRateComparisonOp :=
        BlocklistComparatorToComparisonOp value }
    else if key == "maxRefreshRate" then
      some { d with mMaxRefreshRate := (strtoul10 value : Int) }
    else if key == "maxRefreshRateMax" then
      some { d with mMaxRefreshRateMax := (strtoul10 value : Int) }
    else if key == "maxRefreshRateComparator" then
      some { d with mMaxRefreshRateComparisonOp :=
        BlocklistComparatorToComparisonOp value }
    else if key == "windowProtocol" then
      some { d with mWindowProtocol := value }
    else if key == "vendor" then
      some { d with mAdapterVendor := value }
    else if key == "driverVendor" then
      some { d with mDriverVendor := value }
    else if key == "feature" then
      let ft := BlocklistFeatureToGfxFeature value
      if ft = FEATURE_INVALID then none else some { d with mFeature := ft }
    else if key == "featureStatus" then
      some { d with mFeatureStatus := BlocklistFeatureStatusToGfxFeatureStatus value }
    else if key == "driverVersion" then
      match env.parseDriverVersion value with
      | some v => some { d with mDriverVersion := v }
      | none => some d
    else if key == "driverVersionMax" then
      match env.parseDriverVersion value with
      | some v => some { d with mDriverVersionMax := v }
      | none => some d
    else if key == "driverVersionComparator" then
      some { d with mComparisonOp := BlocklistComparatorToComparisonOp value }
    else if key == "model" then some { d with mModel := value }
    else if key == "product" then some { d with mProduct := value }
    else if key == "manufacturer" then some { d with mManufacturer := value }
    else if key == "hardware" then some { d with mHardware := value }
    else if key == "versionRange" then
      match ParseString ',' value with
      | [minValue, maxValue] =>
        if env.versionGTZero minValue && !(env.appGEVersion minValue) then none
        else if env.versionGTZero maxValue && !(env.appLEVersion maxValue) then none
        else some d
      | _ => none
    else if key == "devices" then
      some { d with mDevices := BlocklistDevicesToDeviceFamily (ParseString ',' value) }
    else some d
  | _ => none

/-- The field loop of `BlocklistEntryToDriverInfo`. -/
def blocklistEntryAux (env : ParseEnv) (d : GfxDriverInfo) :
    List String → Option GfxDriverInfo
  | [] => some d
  | f :: rest =>
    match parseBlocklistField env d f with
    | some d2 => blocklistEntryAux env d2 rest
    | none => none

/-- `BlocklistEntryToDriverInfo` (GfxInfoBase.cpp:327): the record is the
list of its tab-separated `key:value` fields; the rule starts from the
default-constructed `GfxDriverInfo` with the no-id rule identifier. -/
def BlocklistEntryToDriverInfo (env : ParseEnv) (fields : List String) :
    Option GfxDriverInfo :=
  blocklistEntryAux env
    { defaultDriverInfo with mRuleId := "FEATURE_FAILURE_DL_BLOCKLIST_NO_ID" }
    fields

/-- The persistent blocklist preference state: the per-feature status pref
(`gfx.blacklist.<feature>`), the per-feature `.failureid` pref, and the
single suggested-driver-version pref. -/
structure PrefStore where
  statusPref : Int → Option FeatureStatus
  failureIdPref : Int → Option String
  suggestedVersion : Option String

/-- `GetPrefNameForFeature` (GfxInfoBase.cpp:142) yields a pref name
exactly for features of the enumeration (`nullptr` otherwise). -/
def hasPrefName (aFeature : Int) : Bool :=
  decide (FEATURE_START ≤ aFeature) && decide (aFeature < FEATURE_COUNT)

/-- `GetPrefValueForFeature` (GfxInfoBase.cpp:161).  Returns the override
entry when the pref exists and is not `FEATURE_DENIED`, together with the
value left in the in-out status argument (which the function sets to
`FEATURE_STATUS_UNKNOWN` before reading the pref, so a miss clobbers the
caller's value and a stored `DENIED` leaks out through it). -/
def GetPrefValueForFeature (prefs : PrefStore) (aFeature : Int)
    (statusInOut : FeatureStatus) :
    Option (FeatureStatus × String) × FeatureStatus :=
  if !hasPrefName aFeature then (none, statusInOut)
  else
    match prefs.statusPref aFeature with
    | none => (none, .STATUS_UNKNOWN)
    | some v =>
      if v = .DENIED then (none, v)
      else
        (some (v, (prefs.failureIdPref aFeature).getD
          "FEATURE_FAILURE_BLOCKLIST_PREF"), v)

/-- `SetPrefValueForFeature` (GfxInfoBase.cpp:189): writes the status
pref; writes the `.failureid` pref only for a non-empty failure id. -/
def SetPrefValueForFeature (aFeature : Int) (aValue : FeatureStatus)
    (aFailureId : String) (p : PrefStore) : PrefStore :=
  if !hasPrefName aFeature then p
  else
    { p with
      statusPref := fun g => if g = aFeature then some aValue else p.statusPref g
      failureIdPref :=
        if aFailureId = "" then p.failureIdPref
        else fun g => if g = aFeature then some aFailureId else p.failureIdPref g }

/-- `RemovePrefForFeature` (GfxInfoBase.cpp:205): clears only the status
pref (not the `.failureid` pref). -/
def RemovePrefForFeature (aFeature : Int) (p : PrefStore) : PrefStore :=
  if !hasPrefName aFeature then p
  else
    { p with statusPref := fun g => if g = aFeature then none else p.statusPref g }

/-- `SetPrefValueForDriverVersion` (GfxInfoBase.cpp:220). -/
def SetPrefValueForDriverVersion (aVersion : String) (p : PrefStore) : PrefStore :=
  { p with suggestedVersion := some aVersion }

/-- `RemovePrefForDriverVersion` (GfxInfoBase.cpp:224). -/
def RemovePrefForDriverVersion (p : PrefStore) : PrefStore :=
  { p with suggestedVersion := none }

/-- The outputs of `GetFeatureStatusImpl`: the `nsresult` (as a success
flag), the in-out status, and the two strings (`none` = never written). -/
structure ImplResult where
  nsOk : Bool
  status : FeatureStatus
  failureId : Option String
  suggestedVersion : Option String
  deriving DecidableEq, Repr

/-- A later write to the in-out failure id overwrites an earlier one. -/
def overwriteFailureId (first second : Option String) : Option String :=
  match second with
  | some s => some s
  | none => first

/-- `AppendPrintf` semantics on the in-out suggested-version string. -/
def appendSuggested (first second : Option String) : Option String :=
  match first, second with
  | none, x => x
  | some a, none => some a
  | some a, some b => some (a ++ b)

/-- `GfxInfoBase::GetFeatureStatusImpl` (GfxInfoBase.cpp:1083): guards for
an invalid feature, an already-determined status and shutdown; the
adapter-attribute fallback; the block-mode scan over the supplied list or
the static list; the allowlist re-scan turning a remaining UNKNOWN into
DENIED, or STATUS_OK for non-allowlisted features.  Every path returns
`NS_OK`. -/
def GetFeatureStatusImpl (aFeature : Int) (statusIn : FeatureStatus)
    (shutdown : Bool) (aDriverInfo staticInfo : List GfxDriverInfo)
    (aOS : Option OperatingSystem) (m : Machine) : ImplResult :=
  if aFeature ≤ 0 then ⟨true, statusIn, none, none⟩
  else if statusIn ≠ .STATUS_UNKNOWN then ⟨true, statusIn, none, none⟩
  else if shutdown then ⟨true, statusIn, none, none⟩
  else
    let os := aOS.getD .Unknown
    match m.adapter1 with
    | none =>
      if OnlyAllowFeatureOnKnownConfig aFeature then
        ⟨true, .BLOCKED_DEVICE, some "FEATURE_FAILURE_CANT_RESOLVE_ADAPTER", none⟩
      else ⟨true, .STATUS_OK, none, none⟩
    | some _ =>
      let list := if aDriverInfo.isEmpty then staticInfo else aDriverInfo
      let r1 := FindBlocklistedDeviceInList list aFeature os false m
      if r1.status = .STATUS_UNKNOWN then
        if IsFeatureAllowlisted aFeature then
          let r2 := FindBlocklistedDeviceInList list aFeature os true m
          let st := if r2.status = .STATUS_UNKNOWN then FeatureStatus.DENIED
            else r2.status
          ⟨true, st, overwriteFailureId r1.failureId r2.failureId,
            appendSuggested r1.suggestedVersion r2.suggestedVersion⟩
        else ⟨true, .STATUS_OK, r1.failureId, r1.suggestedVersion⟩
      else ⟨true, r1.status, r1.failureId, r1.suggestedVersion⟩

/-- The outputs of `GfxInfoBase::GetFeatureStatus`. -/
structure GetFeatureStatusResult where
  nsOk : Bool
  status : FeatureStatus
  failureId : Option String
  deriving DecidableEq, Repr

/-- One entry of the cached `sFeatureStatus` snapshot received from the
parent process. -/
structure FeatureStatusEntry where
  feature : Int
  status : FeatureStatus
  failureId : String
  deriving DecidableEq, Repr

/-- `GfxInfoBase::GetFeatureStatus` (GfxInfoBase.cpp:534): the
`gfx.blocklist.all` escape hatch, the downloadable-blocklist pref lookup,
the content/GPU-process snapshot path, and the parent-process fallback to
`GetFeatureStatusImpl` with an empty downloaded list (hence the static
list). -/
def GetFeatureStatus (blocklistAll : Int) (prefs : PrefStore)
    (isContentOrGpuProcess : Bool) (snapshot : Option (List FeatureStatusEntry))
    (statusIn : FeatureStatus) (shutdown : Bool)
    (staticInfo : List GfxDriverInfo) (m : Machine) (aFeature : Int) :
    GetFeatureStatusResult :=
  if blocklistAll > 0 then ⟨true, .BLOCKED_DEVICE, some "FEATURE_FAILURE_BLOCK_ALL"⟩
  else if blocklistAll < 0 then ⟨true, .STATUS_OK, none⟩
  else
    match GetPrefValueForFeature prefs aFeature statusIn with
    | (some (v, fid), _) => ⟨true, v, some fid⟩
    | (none, status1) =>
      if isContentOrGpuProcess then
        match snapshot with
        | none => ⟨false, status1, none⟩
        | some entries =>
          match entries.find? (fun e => e.feature = aFeature) with
          | some e => ⟨true, e.status, some e.failureId⟩
          | none => ⟨false, status1, none⟩
      else
        let r := GetFeatureStatusImpl aFeature status1 shutdown [] staticInfo none m
        ⟨r.nsOk, r.status, r.failureId⟩

/-- The features the downloaded-blocklist replay iterates
(`FEATURE_START` inclusive to `FEATURE_COUNT` exclusive). -/
def featureRange : List Int :=
  (List.range (FEATURE_COUNT - FEATURE_START).toNat).map
    (fun k => FEATURE_START + (k : Int))

/-- The per-feature pref update switch of `EvaluateDownloadedBlocklist`
(GfxInfoBase.cpp:1227-1260): UNKNOWN / allow-family / DENIED / OK (and the
asserting default) clear the override; BLOCKED_DRIVER_VERSION persists or
clears the suggested version and falls through to persisting the status;
the other blocked/discouraged statuses persist status and failure id. -/
def applyFeatureOutcome (feature : Int) (status : FeatureStatus)
    (failureId : String) (suggestedVersion : String) (p : PrefStore) : PrefStore :=
  match status with
  | .BLOCKED_DRIVER_VERSION =>
    let p1 := if suggestedVersion ≠ "" then SetPrefValueForDriverVersion suggestedVersion p
      else RemovePrefForDriverVersion p
    SetPrefValueForFeature feature status failureId p1
  | .BLOCKED_MISMATCHED_VERSION => SetPrefValueForFeature feature status failureId p
  | .BLOCKED_DEVICE => SetPrefValueForFeature feature status failureId p
  | .DISCOURAGED => SetPrefValueForFeature feature status failureId p
  | .BLOCKED_OS_VERSION => SetPrefValueForFeature feature status failureId p
  | .BLOCKED_PLATFORM_TEST => SetPrefValueForFeature feature status failureId p
  | _ => RemovePrefForFeature feature p

/-- `GfxInfoBase::EvaluateDownloadedBlocklist` (GfxInfoBase.cpp:1200): an
empty batch returns without touching any pref; otherwise every feature is
re-evaluated against the downloaded list and the prefs updated per
status. -/
def EvaluateDownloadedBlocklist (aDriverInfo : List GfxDriverInfo)
    (shutdown : Bool) (os : OperatingSystem)
    (staticInfo : List GfxDriverInfo) (m : Machine) (prefs : PrefStore) :
    PrefStore :=
  if aDriverInfo.isEmpty then prefs
  else
    featureRange.foldl
      (fun p f =>
        let r := GetFeatureStatusImpl f .STATUS_UNKNOWN shutdown aDriverInfo
          staticInfo (some os) m
        applyFeatureOutcome f r.status (r.failureId.getD "")
          (r.suggestedVersion.getD "") p)
      prefs

/-! Concrete fixtures used by the evaluation theorems below. -/

/-- A machine with a healthy primary adapter, no secondary adapter, one
screen's worth of default display data, and getters that are not
implemented (the benign case on this platform). -/
def baseMachine : Machine where
  mWindowProtocol := .notImplemented
  mHasBattery := .notImplemented
  mScreenCount := 0
  mMinRefreshRate := 0
  mMaxRefreshRate := 0
  mScreenPixels := 0
  mOsVersion := 0
  mOsVersionEx := 0
  adapter1 := some ⟨"0x8086", "0x1234", "intel-driver", 0⟩
  adapter2 := none
  mHardware := ""
  mModel := ""
  mProduct := ""
  mManufacturer := ""

/-- `baseMachine` with an NVidia 310M as the secondary adapter. -/
def nvMachine : Machine :=
  { baseMachine with adapter2 := some ⟨"0x10DE", "0x0a70", "nv", 0⟩ }

/-- A wildcard block rule for all Windows systems and all features. -/
def blockRule : GfxDriverInfo :=
  { defaultDriverInfo with
    mOperatingSystem := .Windows
    mFeatureStatus := .BLOCKED_DEVICE }

/-- A non-empty device set whose membership lookup fails for a reason
other than not-found. -/
def errFamily : GfxDeviceFamily where
  isEmpty := false
  contains := fun _ => .error

/-- `blockRule` constrained to `errFamily`: its device lookup always
fails. -/
def errRule : GfxDriverInfo :=
  { blockRule with mDevices := some errFamily }

/-- A wildcard allow rule for all Windows systems. -/
def allowMatchRule : GfxDriverInfo :=
  { defaultDriverInfo with
    mOperatingSystem := .Windows
    mFeatureStatus := .ALLOW_ALWAYS }

/-- `allowMatchRule` constrained to `errFamily`. -/
def errAllowRule : GfxDriverInfo :=
  { allowMatchRule with mDevices := some errFamily }

/-- An allow rule that matches nothing (default rule-OS is unknown):
enough for list-level statements about allow-only rule lists. -/
def allowRule : GfxDriverInfo :=
  { defaultDriverInfo with mFeatureStatus := .ALLOW_ALWAYS }

/-- A driver-version block rule: strict `LESS_THAN` against the packed
version 8.52.322.2200, no explicit suggestion. -/
def bdvRule : GfxDriverInfo :=
  { blockRule with
    mFeatureStatus := .BLOCKED_DRIVER_VERSION
    mComparisonOp := .LESS_THAN
    mDriverVersion := 0x0008003401420898 }

/-- `blockRule` whose comparator came from an unrecognized comparator
token. -/
def fooRule : GfxDriverInfo :=
  { blockRule with mComparisonOp := BlocklistComparatorToComparisonOp "SOME_FUTURE_OP" }

/-- A pref store holding a `DENIED` override with a failure id for
`FEATURE_GPU_PROCESS`. -/
def prefsD : PrefStore where
  statusPref := fun g => if g = FEATURE_GPU_PROCESS then some .DENIED else none
  failureIdPref := fun g => if g = FEATURE_GPU_PROCESS then some "SOME_ID" else none
  suggestedVersion := none

/-- A pref store holding a `BLOCKED_DEVICE` override with a failure id for
`FEATURE_DIRECT3D_11_ANGLE`. -/
def prefsB : PrefStore where
  statusPref := fun g => if g = FEATURE_DIRECT3D_11_ANGLE then some .BLOCKED_DEVICE else none
  failureIdPref := fun g => if g = FEATURE_DIRECT3D_11_ANGLE then some "FEATURE_FAILURE_X" else none
  suggestedVersion := none

/-- `baseMachine` with the primary adapter's attributes unobtainable. -/
def noAdapterMachine : Machine :=
  { baseMachine with adapter1 := none }

/-! Claim theorems. -/

/-- C1: on a rule with a non-empty device set whose membership lookup
fails for a reason other than not-found, the block-mode scan `break`s out
with the status still `FEATURE_STATUS_UNKNOWN`: the rule's status
(`BLOCKED_DEVICE` here) is *not* returned and later rules are skipped —
contradicting the fail-safe the claim (and the code's own comment) states
— while in allow mode the scan continues and a later allow rule can still
win. -/
theorem C1_device_lookup_error_eval :
    errRule.mFeatureStatus = .BLOCKED_DEVICE ∧
    FindBlocklistedDeviceInList [errRule, blockRule] FEATURE_GPU_PROCESS
      .Windows10 false baseMachine = ⟨.STATUS_UNKNOWN, none, none⟩ ∧
    FindBlocklistedDeviceInList [blockRule] FEATURE_GPU_PROCESS
      .Windows10 false baseMachine
      = ⟨.BLOCKED_DEVICE, some "FEATURE_FAILURE_DL_BLOCKLIST_NO_ID", none⟩ ∧
    FindBlocklistedDeviceInList [errAllowRule, allowMatchRule] FEATURE_GPU_PROCESS
      .Windows10 true baseMachine
      = ⟨.ALLOW_ALWAYS, some "FEATURE_FAILURE_DL_BLOCKLIST_NO_ID", none⟩ := by
  refine ⟨rfl, rfl, rfl, rfl⟩

/-- C2 counterexample: a rule whose comparator token is unrecognized
*does* match a system value — the token maps to
`DRIVER_COMPARISON_IGNORED`, which matches everything, so the rule wins
the scan with its blocked status. -/
theorem C2_counterexample :
    recognizedComparatorToken "SOME_FUTURE_OP" = false ∧
    BlocklistComparatorToComparisonOp "SOME_FUTURE_OP" = .COMPARISON_IGNORED ∧
    (FindBlocklistedDeviceInList [fooRule] FEATURE_GPU_PROCESS .Windows10 false
      baseMachine).status = .BLOCKED_DEVICE := by
  refine ⟨rfl, rfl, rfl⟩

/-- C2 (amended): an unrecognized comparator token maps to
`DRIVER_COMPARISON_IGNORED`, so the resulting driver-version comparison
succeeds for *every* system value (fail-open, never a hard error), rather
than failing closed to no-match. -/
theorem C2_unrecognized_comparator_is_ignored (tok : String)
    (h : recognizedComparatorToken tok = false) :
    BlocklistComparatorToComparisonOp tok = .COMPARISON_IGNORED ∧
    ∀ v lower upper : Nat,
      DriverVersionMatches (BlocklistComparatorToComparisonOp tok) v lower upper
        = true := by
  unfold recognizedComparatorToken at h
  simp only [Bool.or_eq_false_iff] at h
  obtain ⟨⟨⟨⟨⟨⟨⟨⟨⟨⟨⟨h1, h2⟩, h3⟩, h4⟩, h5⟩, h6⟩, h7⟩, h8⟩, h9⟩, h10⟩, h11⟩, h12⟩ := h
  have hop : BlocklistComparatorToComparisonOp tok = .COMPARISON_IGNORED := by
    unfold BlocklistComparatorToComparisonOp
    simp [h1, h2, h3, h4, h5, h6, h7, h8, h9, h10, h11, h12]
  refine ⟨hop, fun v lower upper => ?_⟩
  rw [hop]
  rfl

/-- C2 witness: the amended theorem applied to a concrete unrecognized
token and concrete version values. -/
theorem C2_witness :
    recognizedComparatorToken "NOT_A_COMPARATOR" = false ∧
    BlocklistComparatorToComparisonOp "NOT_A_COMPARATOR" = .COMPARISON_IGNORED ∧
    DriverVersionMatches (BlocklistComparatorToComparisonOp "NOT_A_COMPARATOR")
      5 3 9 = true :=
  ⟨by decide,
   (C2_unrecognized_comparator_is_ignored "NOT_A_COMPARATOR" (by decide)).1,
   (C2_unrecognized_comparator_is_ignored "NOT_A_COMPARATOR" (by decide)).2 5 3 9⟩

/-- C3: when the scan is won by a rule and the returned status is
`BLOCKED_DRIVER_VERSION`, the suggested-version output is the rule's
explicit suggestion if present, else — exactly when its comparator is
strict `LESS_THAN` and its bound is not the all-versions sentinel — the
four 16-bit fields of the packed bound as a dotted string, and nothing
for every other comparator (including `LESS_THAN_OR_EQUAL`). -/
theorem C3_suggested_version_formula (info : List GfxDriverInfo)
    (aFeature : Int) (os : OperatingSystem) (aForAllowing : Bool) (m : Machine)
    (r : GfxDriverInfo)
    (hscan : scanDriverList info aFeature os aForAllowing m = .matched r)
    (hst : (FindBlocklistedDeviceInList info aFeature os aForAllowing m).status
      = .BLOCKED_DRIVER_VERSION) :
    (FindBlocklistedDeviceInList info aFeature os aForAllowing m).suggestedVersion
      = match r.mSuggestedVersion with
        | some s => some s
        | none =>
          if r.mComparisonOp = .LESS_THAN ∧ r.mDriverVersion ≠ allDriverVersions
          then some (formatDriverVersion r.mDriverVersion)
          else none := by
  unfold FindBlocklistedDeviceInList at hst ⊢
  by_cases h1 : m.mWindowProtocol = .failed
  · rw [if_pos h1] at hst
    exact absurd hst (by decide)
  rw [if_neg h1] at hst ⊢
  by_cases h2 : m.mHasBattery = .failed
  · rw [if_pos h2] at hst
    exact absurd hst (by decide)
  rw [if_neg h2] at hst ⊢
  by_cases h3 : m.adapter1 = none ∧ m.adapter2 = none
  · rw [if_pos h3] at hst
    exact absurd hst (by decide)
  rw [if_neg h3] at hst ⊢
  rw [hscan] at hst ⊢
  unfold findAssemble at hst ⊢
  dsimp only at hst ⊢
  by_cases hnv : r.mFeatureStatus = FeatureStatus.STATUS_UNKNOWN ∧
      nv310mCondition aFeature m = true
  · rw [if_pos hnv] at hst
    exact absurd hst (by decide)
  · rw [if_neg hnv] at hst
    rw [if_neg hnv]
    rw [if_pos hst]
    rfl

/-- C3 witness: the spec's own §8 shape — a `BLOCKED_DRIVER_VERSION` rule
(here with strict `LESS_THAN` against packed 8.52.322.2200 and no explicit
suggestion) winning the scan. -/
theorem C3_witness :
    scanDriverList [bdvRule] FEATURE_GPU_PROCESS .Windows10 false baseMachine
      = .matched bdvRule ∧
    (FindBlocklistedDeviceInList [bdvRule] FEATURE_GPU_PROCESS .Windows10 false
      baseMachine).status = .BLOCKED_DRIVER_VERSION ∧
    (FindBlocklistedDeviceInList [bdvRule] FEATURE_GPU_PROCESS .Windows10 false
      baseMachine).suggestedVersion
      = match bdvRule.mSuggestedVersion with
        | some s => some s
        | none =>
          if bdvRule.mComparisonOp = .LESS_THAN ∧
             bdvRule.mDriverVersion ≠ allDriverVersions
          then some (formatDriverVersion bdvRule.mDriverVersion)
          else none :=
  ⟨rfl, rfl,
   C3_suggested_version_formula [bdvRule] FEATURE_GPU_PROCESS .Windows10 false
     baseMachine bdvRule rfl rfl⟩

/-- C4: in `GetFeatureStatusImpl`, when the block-mode scan over the
selected list (downloaded if non-empty, else static) yields UNKNOWN: an
allowlist-governed feature gets an allow-mode re-scan whose further
UNKNOWN becomes DENIED, and a non-allowlisted feature gets STATUS_OK. -/
theorem C4_unknown_fallback (aFeature : Int)
    (aDriverInfo staticInfo : List GfxDriverInfo) (aOS : Option OperatingSystem)
    (m : Machine) (ad : AdapterInfo)
    (hpos : 0 < aFeature) (had : m.adapter1 = some ad)
    (hub : (FindBlocklistedDeviceInList
        (if aDriverInfo.isEmpty then staticInfo else aDriverInfo) aFeature
        (aOS.getD .Unknown) false m).status = .STATUS_UNKNOWN) :
    (IsFeatureAllowlisted aFeature = true →
      (FindBlocklistedDeviceInList
          (if aDriverInfo.isEmpty then staticInfo else aDriverInfo) aFeature
          (aOS.getD .Unknown) true m).status = .STATUS_UNKNOWN →
      (GetFeatureStatusImpl aFeature .STATUS_UNKNOWN false aDriverInfo staticInfo
        aOS m).status = .DENIED) ∧
    (IsFeatureAllowlisted aFeature = false →
      (GetFeatureStatusImpl aFeature .STATUS_UNKNOWN false aDriverInfo staticInfo
        aOS m).status = .STATUS_OK) := by
  have hle : ¬ aFeature ≤ 0 := by omega
  unfold GetFeatureStatusImpl
  rw [if_neg hle]
  rw [if_neg (show ¬ (FeatureStatus.STATUS_UNKNOWN ≠ FeatureStatus.STATUS_UNKNOWN)
    by simp)]
  rw [if_neg (show ¬ ((false : Bool) = true) by simp)]
  rw [had]
  dsimp only
  rw [if_pos hub]
  constructor
  · intro hal hub2
    rw [if_pos hal]
    dsimp only
    rw [if_pos hub2]
  · intro hal
    rw [if_neg (by simp [hal])]

/-- C4 witness: the allowlist-governed feature with empty rule lists on
the base machine resolves to DENIED. -/
theorem C4_witness :
    (0 < FEATURE_HW_DECODED_VIDEO_ZERO_COPY) ∧
    baseMachine.adapter1 = some ⟨"0x8086", "0x1234", "intel-driver", 0⟩ ∧
    (FindBlocklistedDeviceInList [] FEATURE_HW_DECODED_VIDEO_ZERO_COPY
      .Unknown false baseMachine).status = .STATUS_UNKNOWN ∧
    ((IsFeatureAllowlisted FEATURE_HW_DECODED_VIDEO_ZERO_COPY = true →
      (FindBlocklistedDeviceInList [] FEATURE_HW_DECODED_VIDEO_ZERO_COPY
        .Unknown true baseMachine).status = .STATUS_UNKNOWN →
      (GetFeatureStatusImpl FEATURE_HW_DECODED_VIDEO_ZERO_COPY .STATUS_UNKNOWN
        false [] [] none baseMachine).status = .DENIED) ∧
    (IsFeatureAllowlisted FEATURE_HW_DECODED_VIDEO_ZERO_COPY = false →
      (GetFeatureStatusImpl FEATURE_HW_DECODED_VIDEO_ZERO_COPY .STATUS_UNKNOWN
        false [] [] none baseMachine).status = .STATUS_OK)) :=
  ⟨by decide, rfl, rfl,
   C4_unknown_fallback FEATURE_HW_DECODED_VIDEO_ZERO_COPY [] [] none baseMachine
     ⟨"0x8086", "0x1234", "intel-driver", 0⟩ (by decide) rfl rfl⟩

/-- C5 counterexample: a stored `DENIED` override entry with failure id
`"SOME_ID"` is not returned verbatim — the pref path rejects `DENIED`
(`GetPrefValueForFeature` returns false for it) and the entry's failure
id is dropped: the returned failure id is untouched (`none`), not
`"SOME_ID"`. -/
theorem C5_counterexample :
    prefsD.statusPref FEATURE_GPU_PROCESS = some .DENIED ∧
    prefsD.failureIdPref FEATURE_GPU_PROCESS = some "SOME_ID" ∧
    GetFeatureStatus 0 prefsD false none .STATUS_UNKNOWN false [] baseMachine
      FEATURE_GPU_PROCESS = ⟨true, .DENIED, none⟩ := by
  refine ⟨rfl, rfl, rfl⟩

/-- C5 (amended): an existing override entry whose stored status is not
`DENIED` is returned verbatim — its status and its stored failure id,
independent of the rule lists, the machine, the process kind and the
incoming status (the pref path precedes all of them) — provided the
force-all escape hatch is unset.  A stored `DENIED` entry is the
exception: its failure id is dropped (see the counterexample). -/
theorem C5_override_verbatim (prefs : PrefStore) (aFeature : Int)
    (v : FeatureStatus) (fid : String) (isContentOrGpuProcess : Bool)
    (snapshot : Option (List FeatureStatusEntry)) (statusIn : FeatureStatus)
    (shutdown : Bool) (staticInfo : List GfxDriverInfo) (m : Machine)
    (hname : hasPrefName aFeature = true)
    (hv : prefs.statusPref aFeature = some v)
    (hden : v ≠ .DENIED)
    (hfid : prefs.failureIdPref aFeature = some fid) :
    GetFeatureStatus 0 prefs isContentOrGpuProcess snapshot statusIn shutdown
      staticInfo m aFeature = ⟨true, v, some fid⟩ := by
  unfold GetFeatureStatus
  rw [if_neg (by omega), if_neg (by omega)]
  unfold GetPrefValueForFeature
  rw [hname]
  dsimp only
  rw [hv]
  dsimp only
  rw [if_neg hden, hfid]
  rfl

/-- C5 witness: a concrete `BLOCKED_DEVICE` override entry returned
verbatim. -/
theorem C5_witness :
    hasPrefName FEATURE_DIRECT3D_11_ANGLE = true ∧
    prefsB.statusPref FEATURE_DIRECT3D_11_ANGLE = some .BLOCKED_DEVICE ∧
    (FeatureStatus.BLOCKED_DEVICE ≠ .DENIED) ∧
    prefsB.failureIdPref FEATURE_DIRECT3D_11_ANGLE = some "FEATURE_FAILURE_X" ∧
    GetFeatureStatus 0 prefsB true none .STATUS_UNKNOWN false [] baseMachine
      FEATURE_DIRECT3D_11_ANGLE = ⟨true, .BLOCKED_DEVICE, some "FEATURE_FAILURE_X"⟩ :=
  ⟨by decide, rfl, by decide, rfl,
   C5_override_verbatim prefsB FEATURE_DIRECT3D_11_ANGLE .BLOCKED_DEVICE
     "FEATURE_FAILURE_X" true none .STATUS_UNKNOWN false [] baseMachine
     (by decide) rfl (by decide) rfl⟩

/-- C6 counterexample: the BUILD_ID comparators do *not* compare the low
16 bits of each side — the rule bound is used unmasked, so with system
build id 0 and bound 65536 the code predicate holds although
`0 % 2^16 < 65536 % 2^16` is false (and similarly for the LE form). -/
theorem C6_counterexample :
    DriverVersionMatches .BUILD_ID_LESS_THAN 0 65536 0 = true ∧
    ¬ (0 % 65536 < 65536 % 65536) ∧
    DriverVersionMatches .BUILD_ID_LESS_THAN_OR_EQUAL 1 65536 0 = true ∧
    ¬ (1 % 65536 ≤ 65536 % 65536) := by
  refine ⟨by decide, by decide, by decide, by decide⟩

/-- C6 (amended): the BUILD_ID comparators mask only the *system* side:
the predicate holds exactly when the system value mod 2^16 is less than
(resp. at most) the full, unmasked rule bound. -/
theorem C6_build_id_masks_system_side (v lower upper : Nat) :
    (DriverVersionMatches .BUILD_ID_LESS_THAN v lower upper = true ↔
      v % 65536 < lower) ∧
    (DriverVersionMatches .BUILD_ID_LESS_THAN_OR_EQUAL v lower upper = true ↔
      v % 65536 ≤ lower) := by
  have hv : v &&& 0xFFFF = v % 65536 := by
    have h := Nat.and_pow_two_sub_one_eq_mod v 16
    norm_num at h
    exact h
  unfold DriverVersionMatches
  rw [hv]
  exact ⟨by simp, by simp⟩

/-- C7: applying an empty downloaded rule batch returns the override
store unchanged: no per-feature entry is cleared or written and the
suggested-version slot is untouched. -/
theorem C7_empty_batch_is_noop (shutdown : Bool) (os : OperatingSystem)
    (staticInfo : List GfxDriverInfo) (m : Machine) (prefs : PrefStore) :
    EvaluateDownloadedBlocklist [] shutdown os staticInfo m prefs = prefs := rfl

/-- C8: when the adapter attributes cannot be obtained,
`GetFeatureStatusImpl` returns `NS_OK` with `BLOCKED_DEVICE` and the
fixed failure id for "only on known config" features and `STATUS_OK` for
every other feature, never an error. -/
theorem C8_adapter_unavailable (aFeature : Int)
    (aDriverInfo staticInfo : List GfxDriverInfo) (aOS : Option OperatingSystem)
    (m : Machine) (hpos : 0 < aFeature) (hnone : m.adapter1 = none) :
    GetFeatureStatusImpl aFeature .STATUS_UNKNOWN false aDriverInfo staticInfo
      aOS m =
      if OnlyAllowFeatureOnKnownConfig aFeature then
        ⟨true, .BLOCKED_DEVICE, some "FEATURE_FAILURE_CANT_RESOLVE_ADAPTER", none⟩
      else ⟨true, .STATUS_OK, none, none⟩ := by
  unfold GetFeatureStatusImpl
  rw [if_neg (show ¬ aFeature ≤ 0 by omega)]
  rw [if_neg (show ¬ (FeatureStatus.STATUS_UNKNOWN ≠ FeatureStatus.STATUS_UNKNOWN)
    by simp)]
  rw [if_neg (show ¬ ((false : Bool) = true) by simp)]
  rw [hnone]

/-- C8 witness: the adapter-unavailable fallback at a concrete
known-config-only feature. -/
theorem C8_witness :
    (0 < FEATURE_HW_DECODED_VIDEO_ZERO_COPY) ∧
    noAdapterMachine.adapter1 = none ∧
    GetFeatureStatusImpl FEATURE_HW_DECODED_VIDEO_ZERO_COPY .STATUS_UNKNOWN
      false [] [] none noAdapterMachine =
      (if OnlyAllowFeatureOnKnownConfig FEATURE_HW_DECODED_VIDEO_ZERO_COPY then
        ⟨true, .BLOCKED_DEVICE, some "FEATURE_FAILURE_CANT_RESOLVE_ADAPTER", none⟩
      else ⟨true, .STATUS_OK, none, none⟩) :=
  ⟨by decide, rfl,
   C8_adapter_unavailable FEATURE_HW_DECODED_VIDEO_ZERO_COPY [] [] none
     noAdapterMachine (by decide) rfl⟩

/-- Helper for C9: in block mode every allow-family rule is skipped at the
very first check of the loop, so an allow-only list exhausts the scan. -/
theorem scan_allow_only_exhausted (info : List GfxDriverInfo) (aFeature : Int)
    (os : OperatingSystem) (m : Machine)
    (h : ∀ r ∈ info, MatchingAllowStatus r.mFeatureStatus = true) :
    scanDriverList info aFeature os false m = .exhausted := by
  induction info with
  | nil => rfl
  | cons r rest ih =>
    have hr : MatchingAllowStatus r.mFeatureStatus = true := h r (by simp)
    have hout : ruleOutcome r aFeature os false m = .skip := by
      unfold ruleOutcome
      rw [if_pos (by simp [hr])]
    unfold scanDriverList
    rw [hout]
    exact ih (fun x hx => h x (by simp [hx]))

/-- C9 counterexample: over a rule list containing only allow-family
entries, a block-mode `find` can still return a non-UNKNOWN status — the
hard-coded NVidia 310M / Direct2D post-scan block fires on a machine with
that secondary adapter. -/
theorem C9_counterexample :
    MatchingAllowStatus allowRule.mFeatureStatus = true ∧
    (FindBlocklistedDeviceInList [allowRule] FEATURE_DIRECT2D .Windows10 false
      nvMachine).status = .BLOCKED_DEVICE := by
  refine ⟨rfl, rfl⟩

/-- C9 (amended): over an allow-only rule list no rule ever wins a
block-mode scan: the result is UNKNOWN except that it can be
`BLOCKED_DEVICE` via the NV310M special case (which requires its
machine/feature condition to hold). -/
theorem C9_allow_only_never_wins_block_scan (info : List GfxDriverInfo)
    (aFeature : Int) (os : OperatingSystem) (m : Machine)
    (h : ∀ r ∈ info, MatchingAllowStatus r.mFeatureStatus = true) :
    (FindBlocklistedDeviceInList info aFeature os false m).status
      = .STATUS_UNKNOWN ∨
    ((FindBlocklistedDeviceInList info aFeature os false m).status
      = .BLOCKED_DEVICE ∧ nv310mCondition aFeature m = true) := by
  unfold FindBlocklistedDeviceInList
  by_cases h1 : m.mWindowProtocol = .failed
  · rw [if_pos h1]; exact Or.inl rfl
  rw [if_neg h1]
  by_cases h2 : m.mHasBattery = .failed
  · rw [if_pos h2]; exact Or.inl rfl
  rw [if_neg h2]
  by_cases h3 : m.adapter1 = none ∧ m.adapter2 = none
  · rw [if_pos h3]; exact Or.inl rfl
  rw [if_neg h3]
  rw [scan_allow_only_exhausted info aFeature os m h]
  unfold findAssemble
  dsimp only
  by_cases hnv : FeatureStatus.STATUS_UNKNOWN = FeatureStatus.STATUS_UNKNOWN ∧
      nv310mCondition aFeature m = true
  · rw [if_pos hnv]
    exact Or.inr ⟨rfl, hnv.2⟩
  · rw [if_neg hnv]
    exact Or.inl rfl

/-- C9 witness: the amended theorem at a concrete allow-only list on the
base machine, where the result is UNKNOWN. -/
theorem C9_witness :
    (∀ r ∈ [allowRule], MatchingAllowStatus r.mFeatureStatus = true) ∧
    ((FindBlocklistedDeviceInList [allowRule] FEATURE_GPU_PROCESS .Windows10
        false baseMachine).status = .STATUS_UNKNOWN ∨
      ((FindBlocklistedDeviceInList [allowRule] FEATURE_GPU_PROCESS .Windows10
        false baseMachine).status = .BLOCKED_DEVICE ∧
        nv310mCondition FEATURE_GPU_PROCESS baseMachine = true)) :=
  ⟨by decide,
   C9_allow_only_never_wins_block_scan [allowRule] FEATURE_GPU_PROCESS
     .Windows10 baseMachine (by decide)⟩

/-- Helper for C10: an unrecognized feature-status token falls through to
`FEATURE_STATUS_OK`. -/
theorem unrecognized_status_token_is_ok (tok : String)
    (h : recognizedStatusToken tok = false) :
    BlocklistFeatureStatusToGfxFeatureStatus tok = .STATUS_OK := by
  unfold recognizedStatusToken at h
  simp only [Bool.or_eq_false_iff] at h
  obtain ⟨⟨⟨⟨⟨⟨⟨⟨⟨⟨⟨g1, g2⟩, g3⟩, g4⟩, g5⟩, g6⟩, g7⟩, g8⟩, g9⟩, g10⟩, g11⟩, g12⟩ := h
  unfold BlocklistFeatureStatusToGfxFeatureStatus
  simp [g1, g2, g3, g4, g5, g6, g7, g8, g9, g10, g11, g12]

/-- C10: a record whose `featureStatus` value is a non-empty unrecognized
token is not rejected: the resulting rule's status is `STATUS_OK`, which
is not allow-family (so the rule takes part in block-mode scans), and a
feature resolving to `STATUS_OK` in the downloaded-blocklist replay has
its override entry cleared. -/
theorem C10_unrecognized_status_parses_ok (tok : String) (env : ParseEnv)
    (hrec : recognizedStatusToken tok = false)
    (hsplit : ParseString ':' ("featureStatus:" ++ tok) = ["featureStatus", tok])
    (hne : tok ≠ "") :
    (BlocklistEntryToDriverInfo env ["featureStatus:" ++ tok]).map
      (fun r => r.mFeatureStatus) = some .STATUS_OK ∧
    MatchingAllowStatus .STATUS_OK = false ∧
    ∀ (f : Int) (fid sv : String) (p : PrefStore), hasPrefName f = true →
      (applyFeatureOutcome f .STATUS_OK fid sv p).statusPref f = none := by
  refine ⟨?_, rfl, ?_⟩
  · unfold BlocklistEntryToDriverInfo blocklistEntryAux parseBlocklistField
    rw [hsplit]
    simp only [hne, unrecognized_status_token_is_ok tok hrec]
    rfl
  · intro f fid sv p hname
    unfold applyFeatureOutcome RemovePrefForFeature
    rw [hname]
    simp

/-- C10 witness: a concrete future status token. -/
theorem C10_witness :
    recognizedStatusToken "FANCY_NEW_STATUS" = false ∧
    ParseString ':' ("featureStatus:" ++ "FANCY_NEW_STATUS")
      = ["featureStatus", "FANCY_NEW_STATUS"] ∧
    ("FANCY_NEW_STATUS" ≠ "") ∧
    (BlocklistEntryToDriverInfo
        ⟨fun _ => true, fun _ => true, fun _ => true, fun _ => some 7, fun _ => 0⟩
        ["featureStatus:" ++ "FANCY_NEW_STATUS"]).map
      (fun r => r.mFeatureStatus) = some .STATUS_OK :=
  ⟨by decide, by decide, by decide,
   (C10_unrecognized_status_parses_ok "FANCY_NEW_STATUS"
     ⟨fun _ => true, fun _ => true, fun _ => true, fun _ => some 7, fun _ => 0⟩
     (by decide) (by decide) (by decide)).1⟩

end GfxBlocklist
